import Mathlib

/-!
Verification development for the invoice batch generator (`generator.py`).

The program is a linear batch script: it fixes a product catalog, seeds a
pseudo-random generator, loops `OUTPUT_COUNT` times producing one invoice
(recipient identity, dates, sampled line items, totals, a rendered PDF and a
manifest row), then writes a catalog CSV, a manifest CSV, and a ZIP of every
`*.pdf` file found in the output directory.

Modelling conventions:
* Randomness: the source consumes a single global seeded PRNG stream in strict
  call order.  We model the stream as a deterministic state machine on `ℕ`
  (a linear congruential step); `randint`, `random.choice`, `random.random`
  and `random.sample` are modelled as state-passing functions with the same
  contracts (inclusive ranges, distinct sampling without replacement, failure
  when the sample size exceeds the population).
* Money: every catalog price is an exact number of cents and every tax rate is
  an exact number of basis points (1/10000), so all money values arising in
  the program are exact multiples of 10⁻⁶ dollars.  Line-item amounts are held
  in integer cents (`qty * price`, as in the source) and the three totals in
  integer micro-dollars: a stored total `t` denotes `t / 1000000` dollars.
  The source's `tax = subtotal * tax_rate` becomes
  `tax(µ$) = subtotalCents * rateBp`, which is the same real number, exactly;
  no rounding is applied, mirroring the source.  Rounding to display occurs
  only in the formatting functions.
* Dates: a `datetime` is modelled by its day number (days since the civil
  epoch 1970-01-01); `timedelta(days = k)` is `+ k`.  Calendar formatting
  (`%Y%m%d`, `%Y-%m-%d`) goes through a standard days-to-civil conversion.
* Files: the output directory is modelled as the list of `*.pdf` file names it
  contains; writing a PDF inserts its name if absent (overwriting otherwise),
  and the final ZIP step bundles every `*.pdf` name present, as the source's
  `PDF_DIR.glob("*.pdf")` does.
-/

/-! ## Pseudo-random generator model -/

/-- One step of the deterministic pseudo-random stream (a classic linear
congruential generator on 31 bits).  Models one draw from Python's seeded
global `random` stream: the exact numbers differ from CPython's Mersenne
Twister, but the structure — a deterministic state machine totally determined
by the seed — is the same, which is what the claims depend on. -/
def rand_next (s : ℕ) : ℕ := (1103515245 * s + 12345) % 2147483648

/-- Models `random.seed(n)`: the initial stream state is a function of `n`. -/
def rand_seed (n : ℕ) : ℕ := n % 2147483648

/-- Models `random.randint(lo, hi)` (both ends inclusive): returns the drawn
value and the advanced stream state. -/
def randint (lo hi s : ℕ) : ℕ × ℕ :=
  (lo + rand_next s % (hi + 1 - lo), rand_next s)

/-- Models `random.choice(l)` for the nonempty constant lists the source uses
(`d` is a default returned only on the empty list, which never occurs). -/
def rand_choice {α : Type} (l : List α) (d : α) (s : ℕ) : α × ℕ :=
  (l.getD (rand_next s % l.length) d, rand_next s)

/-- Models the test `random.random() < 0.5`: a fair boolean draw. -/
def rand_half (s : ℕ) : Bool × ℕ :=
  (rand_next s % 2 == 0, rand_next s)

/-! ## Static data (from the source, prices in exact cents) -/

/-- The fixed product catalog: `name ↦ (unit, price)` with the price in cents.
Python dict iteration order is insertion order, so a list is a faithful
model.  Entries exactly as in `PRODUCT_CATALOG` in the source. -/
def PRODUCT_CATALOG : List (String × String × ℕ) :=
  [ ("Stainless Steel Chef Knife 8in", ("each", 3499)),
    ("Paring Knife 3.5in", ("each", 1250)),
    ("Silver Fork", ("each", 500)),
    ("Dinner Spoon", ("each", 450)),
    ("Soup Ladle", ("each", 1125)),
    ("Wooden Spatula", ("each", 399)),
    ("Silicone Spatula", ("each", 549)),
    ("Nonstick Fry Pan 10in", ("each", 3995)),
    ("Cast Iron Skillet 12in", ("each", 5400)),
    ("Stainless Sauce Pan 2qt", ("each", 2999)),
    ("Stainless Stock Pot 12qt", ("each", 7900)),
    ("Cutting Board - Maple", ("each", 2275)),
    ("Cutting Board - Plastic", ("each", 1299)),
    ("Mixing Bowl 3qt", ("each", 825)),
    ("Mixing Bowl 5qt", ("each", 1150)),
    ("Sheet Pan Half", ("each", 925)),
    ("Sheet Pan Full", ("each", 1475)),
    ("Baking Parchment Roll", ("roll", 780)),
    ("Squeeze Bottle 16oz", ("each", 199)),
    ("Food Storage Container 2qt", ("each", 625)),
    ("Food Storage Container 4qt", ("each", 810)),
    ("Cambro Lid (fits 2–4qt)", ("each", 210)),
    ("Disposable Gloves (Box 100)", ("box", 799)),
    ("Chef Apron", ("each", 1200)),
    ("Digital Thermometer", ("each", 1895)),
    ("Kitchen Towels (Pack of 6)", ("pack", 1099)),
    ("Aluminum Foil Heavy Duty 1000ft", ("roll", 2950)),
    ("Plastic Wrap 2000ft", ("roll", 2425)),
    ("Bus Tub", ("each", 999)),
    ("Dish Rack", ("each", 1650)),
    ("Serrated Bread Knife 10in", ("each", 2475)),
    ("Tongs 12in", ("each", 460)),
    ("Whisk 10in", ("each", 380)),
    ("Mandoline Slicer", ("each", 4200)),
    ("Colander Stainless 5qt", ("each", 1420)),
    ("Immersion Blender", ("each", 8900)),
    ("Heat-Resistant Spatula", ("each", 640)),
    ("Silicone Baking Mat Half", ("each", 1120)),
    ("Grill Brush", ("each", 730)),
    ("Commercial Can Opener", ("each", 6499)) ]

/-- The fixed set of jurisdiction tax rates, in basis points (1/10000):
`[0.06, 0.0625, 0.07, 0.0725, 0.08, 0.0825, 0.085]` in the source. -/
def TAX_RATES_BP : List ℕ := [600, 625, 700, 725, 800, 825, 850]

/-- City/state/zip-prefix table (`CITIES` in the source). -/
def CITIES : List (String × String × String) :=
  [ ("Philadelphia", ("PA", "191")), ("Pittsburgh", ("PA", "152")),
    ("Harrisburg", ("PA", "171")), ("Newark", ("DE", "197")),
    ("Wilmington", ("DE", "198")), ("Baltimore", ("MD", "212")),
    ("Towson", ("MD", "212")), ("Cherry Hill", ("NJ", "080")),
    ("Trenton", ("NJ", "086")), ("Camden", ("NJ", "081")),
    ("New York", ("NY", "100")), ("Yonkers", ("NY", "107")),
    ("Stamford", ("CT", "069")), ("Allentown", ("PA", "181")),
    ("Reading", ("PA", "196")), ("Lancaster", ("PA", "176")),
    ("Scranton", ("PA", "185")), ("Bethlehem", ("PA", "180")) ]

/-- Street-name word list (`STREET_NAMES` in the source). -/
def STREET_NAMES : List String :=
  [ "Market St", "Broad St", "Main St", "Chestnut St", "Walnut St",
    "Spruce St", "Pine St", "Maple Ave", "Elm Ave", "Second St",
    "Third St", "Fourth St", "Fifth Ave", "Park Ave", "Ridge Ave",
    "Front St", "River Rd", "High St", "Bridge St", "Union Ave" ]

/-- First word list for composed restaurant names (`RESTAURANT_PREFIX` in the
source). -/
def RESTAURANT_FIRST_WORDS : List String :=
  [ "Golden", "Red Oak", "Blue Harbor", "Sunrise", "Cedar Grove", "Harvest",
    "Liberty", "Hudson", "Riverstone", "Silver Spoon", "Firefly", "Willow",
    "Urban", "Green Leaf", "Copper Pot", "Iron Gate", "Saffron", "Juniper",
    "Nick\x27s", "Bella", "Little" ]

/-- Second word list for composed restaurant names (`RESTAURANT_SUFFIX` in the
source). -/
def RESTAURANT_SECOND_WORDS : List String :=
  [ "Bistro", "Tavern", "Kitchen", "Trattoria", "Grill", "Diner",
    "Cantina", "Ramen House", "Pizzeria", "Steakhouse", "Cafe",
    "Tap House", "Bar & Grill", "Smokehouse", "Gastropub" ]

/-- Noun list for "The X Y" restaurant names (inline in the source). -/
def THE_NOUNS : List String :=
  ["Fork", "Spatula", "Spice", "Anchor", "Lantern", "Hearth", "Crown",
   "Sailor", "Spoon"]

/-- Adjective list for "The X Y" restaurant names (inline in the source). -/
def THE_ADJECTIVES : List String :=
  ["Rusty", "Golden", "Blue", "Green", "Silver", "Old", "Velvet"]

/-- Sender identity constant (`FROM_NAME` in the source). -/
def FROM_NAME : String := "Nickyboys\x27 Restaurant Goodies"

/-! ## Decimal string helpers (Python `str`/format modelling) -/

/-- Decimal digits of `n`, most significant first, by fuelled structural
recursion (so that the kernel can evaluate it); `decDigits_eq` below relates
it to `Nat.digits`. -/
def decDigitsAux : ℕ → ℕ → List ℕ
  | 0, _ => []
  | _, 0 => []
  | fuel + 1, n + 1 => decDigitsAux fuel ((n + 1) / 10) ++ [(n + 1) % 10]

/-- Decimal digits of `n`, most significant first (empty for 0, which the
zero-padded formats below fill in, matching `%0Nd`). -/
def decDigits (n : ℕ) : List ℕ := decDigitsAux n n

/-- Decimal digit characters of `n`, most significant first. -/
def decChars (n : ℕ) : List Char := (decDigits n).map Nat.digitChar

/-- Models Python's zero-padded decimal format `f"{n:0{w}d}"`: the decimal
digits of `n`, left-padded with `'0'` to at least width `w`. -/
def zfill (w n : ℕ) : String := ⟨List.replicate (w - (decChars n).length) '0' ++ decChars n⟩

/-- Models Python `str(n)` for a natural number. -/
def natStr (n : ℕ) : String := if n = 0 then "0" else ⟨decChars n⟩

/-! ## Dates -/

/-- Civil Gregorian date `(year, month, day)` from a day number (days since
1970-01-01), by the standard era-based conversion used for `datetime`
formatting. -/
def civilFromDays (z : ℕ) : ℕ × ℕ × ℕ :=
  let z' := z + 719468
  let era := z' / 146097
  let doe := z' % 146097
  let yoe := (doe - doe / 1460 + doe / 36524 - doe / 146096) / 365
  let y := yoe + era * 400
  let doy := doe - (365 * yoe + yoe / 4 - yoe / 100)
  let mp := (5 * doy + 2) / 153
  let d := doy - (153 * mp + 2) / 5 + 1
  let m := if mp < 10 then mp + 3 else mp - 9
  (if m ≤ 2 then y + 1 else y, m, d)

/-- Models `datetime.strftime("%Y%m%d")` on a day number. -/
def yyyymmdd (z : ℕ) : String :=
  let c := civilFromDays z
  zfill 4 c.1 ++ zfill 2 c.2.1 ++ zfill 2 c.2.2

/-- Models `datetime.strftime("%Y-%m-%d")` (ISO 8601) on a day number. -/
def isoDate (z : ℕ) : String :=
  let c := civilFromDays z
  zfill 4 c.1 ++ "-" ++ zfill 2 c.2.1 ++ "-" ++ zfill 2 c.2.2

/-! ## Money formatting -/

/-- Models the 2-decimal display format `f"{x:.2f}"` on a money value in
micro-dollars: round to whole cents, then print `dollars.cc`.  (Display-only:
ties are rounded up here, while CPython's float formatting rounds the nearest
double to even; no claim depends on the tie direction.) -/
def fmtMicro2 (m : ℕ) : String :=
  let cents := (m + 5000) / 10000
  natStr (cents / 100) ++ "." ++ zfill 2 (cents % 100)

/-- Models `f"{price:.2f}"` on an exact price in cents. -/
def fmtCents2 (c : ℕ) : String := natStr (c / 100) ++ "." ++ zfill 2 (c % 100)

/-! ## Data model -/

/-- One line item, as built in `choose_line_items`:
`(name, unit, qty, price, qty * price)`.  `price` and `amount` are in cents. -/
structure LineItem where
  name : String
  unit : String
  qty : ℕ
  price : ℕ
  amount : ℕ
  deriving Repr, DecidableEq

/-- One generated invoice (the spec's DocumentRecord): identity, dates (as day
numbers), recipient, line items, tax rate (basis points), and totals.
`subtotal`, `tax` and `grand` are in micro-dollars: a stored value `t`
denotes `t / 1000000` dollars, so the source's real-number equations
`tax = subtotal * tax_rate` and `grand = subtotal + tax` hold exactly iff the
corresponding integer equations hold here. -/
structure DocumentRecord where
  invoiceNumber : String
  issued : ℕ
  due : ℕ
  toName : String
  addr1 : String
  addr2 : String
  lines : List LineItem
  taxRateBp : ℕ
  subtotal : ℕ
  tax : ℕ
  grand : ℕ
  deriving Repr, DecidableEq

/-! ## Identity generation -/

/-- Models `make_restaurant_name()`: with one fair draw choose between a
composed `{first} {second}` name and `The {adjective} {noun}` (the source
draws the noun before the adjective). -/
def make_restaurant_name (s : ℕ) : String × ℕ :=
  let r1 := rand_half s
  if r1.1 then
    let r2 := rand_choice RESTAURANT_FIRST_WORDS "" r1.2
    let r3 := rand_choice RESTAURANT_SECOND_WORDS "" r2.2
    (r2.1 ++ " " ++ r3.1, r3.2)
  else
    let r2 := rand_choice THE_NOUNS "" r1.2
    let r3 := rand_choice THE_ADJECTIVES "" r2.2
    ("The " ++ r3.1 ++ " " ++ r2.1, r3.2)

/-- Models `make_address()`: street number in [100, 9999], a street name, a
(city, state, zip-prefix) triple, and a 2-digit zip suffix in [10, 99]. -/
def make_address (s : ℕ) : (String × String) × ℕ :=
  let r1 := randint 100 9999 s
  let r2 := rand_choice STREET_NAMES "" r1.2
  let r3 := rand_choice CITIES ("", ("", "")) r2.2
  let r4 := randint 10 99 r3.2
  ((natStr r1.1 ++ " " ++ r2.1,
    r3.1.1 ++ ", " ++ r3.1.2.1 ++ " " ++ (r3.1.2.2 ++ zfill 2 r4.1)), r4.2)

/-- Models `random_invoice_number(i)`:
`f"INV-{datetime.now().strftime('%Y%m%d')}-{i:03d}"` with the current date
passed in as a day number. -/
def random_invoice_number (today i : ℕ) : String :=
  ("INV-" ++ yyyymmdd today ++ "-") ++ zfill 3 i

/-! ## Line-item sampling -/

/-- Select the element at index `i` and the remaining population, or `none`
when the population is exhausted. -/
def sample_pick {α : Type} (l : List α) (i : ℕ) : Option (α × List α) :=
  match l[i]? with
  | some a => some (a, l.eraseIdx i)
  | none => none

/-- Models `random.sample(l, n)`: draw `n` elements of `l` without
replacement (distinct positions), threading the stream; `none` models the
`ValueError` Python raises when `n` exceeds the population size. -/
def sample {α : Type} : List α → ℕ → ℕ → Option (List α × ℕ)
  | _, 0, s => some ([], s)
  | l, n + 1, s =>
    if l.length = 0 then none
    else
      match sample_pick l (randint 0 (l.length - 1) s).1 with
      | none => none
      | some (a, rest) =>
        match sample rest n (randint 0 (l.length - 1) s).2 with
        | none => none
        | some (cs, s') => some (a :: cs, s')

/-- Assign a quantity in [1, 40] to each sampled catalog entry and build the
line `(name, unit, qty, price, qty * price)`, as the loop body of
`choose_line_items` does. -/
def assign_qtys : List (String × String × ℕ) → ℕ → List LineItem × ℕ
  | [], s => ([], s)
  | e :: rest, s =>
    let r := randint 1 40 s
    let t := assign_qtys rest r.2
    ({ name := e.1, unit := e.2.1, qty := r.1, price := e.2.2,
       amount := r.1 * e.2.2 } :: t.1, t.2)

/-- Models `choose_line_items()`: draw a count `n` in [5, 12], sample `n`
distinct catalog entries, then draw a quantity per entry.  `none` models the
uncaught `ValueError` when `n` exceeds the catalog size. -/
def choose_line_items (catalog : List (String × String × ℕ)) (s : ℕ) :
    Option (List LineItem × ℕ) :=
  match sample catalog (randint 5 12 s).1 (randint 5 12 s).2 with
  | none => none
  | some (items, s') => some (assign_qtys items s')

/-! ## Totals (computed twice in the source, with identical formulas) -/

/-- The totals computed inside `draw_invoice` (source lines 241-243):
`subtotal = sum(a for _,_,_,_,a in lines)`, `tax = subtotal * tax_rate`,
`grand = subtotal + tax`.  Units: subtotal/tax/grand in micro-dollars, from
amounts in cents and the rate in basis points. -/
def draw_invoice_totals (lines : List LineItem) (rateBp : ℕ) : ℕ × ℕ × ℕ :=
  ((lines.map (fun li => li.amount)).sum * 10000,
   (lines.map (fun li => li.amount)).sum * rateBp,
   (lines.map (fun li => li.amount)).sum * 10000
     + (lines.map (fun li => li.amount)).sum * rateBp)

/-- The totals recomputed in the main loop (source lines 307-309):
`subtotal = sum(a for *_, a in lines)` — Python's `sum` is a left fold from
0 — then the same two formulas. -/
def main_loop_totals (lines : List LineItem) (rateBp : ℕ) : ℕ × ℕ × ℕ :=
  let subtotalCents := lines.foldl (fun acc li => acc + li.amount) 0
  (subtotalCents * 10000, subtotalCents * rateBp,
   subtotalCents * 10000 + subtotalCents * rateBp)

/-! ## One iteration of the main loop -/

/-- One iteration of the source's main loop (lines 290-315), for iteration
index `i` (1-based) with `today` the current day number: invoice number,
recipient name and address, issued date `(today - 30) + randint(0, 25)` and
due date `issued + choice([7, 14, 21, 30])`, sampled line items, tax rate,
and the recomputed totals.  `none` models the uncaught sampling error.
The stream is threaded in the source's call order: name, address, issued
offset, due offset, line items (count, sample, quantities), tax rate; the
pure expressions are written as projections of the corresponding draw. -/
def gen_invoice (today i s : ℕ) : Option (DocumentRecord × ℕ) :=
  match choose_line_items PRODUCT_CATALOG
      (rand_choice [7, 14, 21, 30] 7
        (randint 0 25 (make_address (make_restaurant_name s).2).2).2).2 with
  | none => none
  | some (lines, s5) =>
    some ({ invoiceNumber := random_invoice_number today i,
            issued := today - 30
              + (randint 0 25 (make_address (make_restaurant_name s).2).2).1,
            due := today - 30
              + (randint 0 25 (make_address (make_restaurant_name s).2).2).1
              + (rand_choice [7, 14, 21, 30] 7
                  (randint 0 25 (make_address (make_restaurant_name s).2).2).2).1,
            toName := (make_restaurant_name s).1,
            addr1 := (make_address (make_restaurant_name s).2).1.1,
            addr2 := (make_address (make_restaurant_name s).2).1.2,
            lines := lines,
            taxRateBp := (rand_choice TAX_RATES_BP 600 s5).1,
            subtotal :=
              (main_loop_totals lines (rand_choice TAX_RATES_BP 600 s5).1).1,
            tax :=
              (main_loop_totals lines (rand_choice TAX_RATES_BP 600 s5).1).2.1,
            grand :=
              (main_loop_totals lines
                (rand_choice TAX_RATES_BP 600 s5).1).2.2 },
      (rand_choice TAX_RATES_BP 600 s5).2)

/-- The manifest row appended for one invoice (source lines 311-315):
`[invoice_no, issued, due, to_name, addr1, addr2, subtotal, tax, grand]`
with ISO dates and 2-decimal money strings. -/
def doc_to_row (d : DocumentRecord) : List String :=
  [d.invoiceNumber, isoDate d.issued, isoDate d.due, d.toName, d.addr1,
   d.addr2, fmtMicro2 d.subtotal, fmtMicro2 d.tax, fmtMicro2 d.grand]

/-- Header row of the manifest CSV. -/
def manifest_header : List String :=
  ["InvoiceNo", "IssuedDate", "DueDate", "ToName", "ToAddr1", "ToAddr2",
   "Subtotal", "Tax", "GrandTotal"]

/-- The catalog CSV: header `Product,Unit,PriceUSD` then one row per catalog
entry with the price formatted to two decimals (source lines 281-285). -/
def catalog_csv_rows : List (List String) :=
  ["Product", "Unit", "PriceUSD"] ::
    PRODUCT_CATALOG.map (fun e => [e.1, e.2.1, fmtCents2 e.2.2])

/-! ## The batch run -/

/-- The main loop from iteration `i`, running `cnt` more iterations and
collecting the generated documents in order. -/
def run_from (today : ℕ) : ℕ → ℕ → ℕ → Option (List DocumentRecord × ℕ)
  | _, 0, s => some ([], s)
  | i, cnt + 1, s =>
    (gen_invoice today i s).bind fun p =>
      (run_from today (i + 1) cnt p.2).map fun q => (p.1 :: q.1, q.2)

/-- Write one file into the output directory: a new name is appended, an
existing one is overwritten in place. -/
def write_pdf (dir : List String) (name : String) : List String :=
  if name ∈ dir then dir else dir ++ [name]

/-- The directory contents after writing all generated PDFs on top of the
pre-existing ones. -/
def final_dir (dir : List String) : List String → List String
  | [] => dir
  | n :: rest => final_dir (write_pdf dir n) rest

/-- The written artifacts of one batch run: the two CSV exports (as rows of
fields) and the names bundled into `invoices.zip`. -/
structure RunResult where
  catalogCsv : List (List String)
  manifestCsv : List (List String)
  zipEntries : List String
  deriving Repr, DecidableEq

/-- The whole batch run (source lines 278-326) as a function of the seed, the
requested count `N` (`OUTPUT_COUNT`), the current day number, and the `*.pdf`
files already present in the output directory: seed the stream, write the
catalog CSV, loop `N` times (each iteration writing `{invoiceNumber}.pdf`),
write the manifest CSV, and zip every `*.pdf` file the directory then
contains — the source globs the directory rather than the files it wrote. -/
def run (seed N today : ℕ) (initialPdfs : List String) : Option RunResult :=
  (run_from today 1 N (rand_seed seed)).map fun p =>
    { catalogCsv := catalog_csv_rows,
      manifestCsv := manifest_header :: p.1.map doc_to_row,
      zipEntries :=
        final_dir initialPdfs
          (p.1.map (fun d => d.invoiceNumber ++ ".pdf")) }

/-! ## CSV byte rendering -/

/-- Quote one CSV field as Python's `csv.writer` does (fields here never
contain quotes or newlines, so only the comma case arises). -/
def csv_quote (f : String) : String :=
  if f.data.contains ',' then "\"" ++ f ++ "\"" else f

/-- One CSV line with the default `\r\n` terminator. -/
def csv_line (r : List String) : String :=
  String.intercalate "," (r.map csv_quote) ++ "\x0d\n"

/-- The bytes of a whole CSV file. -/
def render_csv (rows : List (List String)) : String :=
  String.join (rows.map csv_line)

/-! ## Startup dependency guard -/

/-- The error message raised when the `reportlab` import fails (source lines
28-31), with the underlying import error appended. -/
def reportlab_error_msg (e : String) : String :=
  "This environment needs the \x27reportlab\x27 package to generate PDFs. " ++
  "Please install it (e.g., `pip install reportlab`) and rerun. " ++
  "Import error: " ++ e

/-- The process as started: the import guard runs before any other work, so
when the document-layout dependency is unavailable the run terminates with
the descriptive error and produces no outputs; otherwise the batch run
proceeds. -/
def program (reportlab_available : Bool) (import_error : String)
    (seed N today : ℕ) (initialPdfs : List String) :
    Except String (Option RunResult) :=
  if reportlab_available then .ok (run seed N today initialPdfs)
  else .error (reportlab_error_msg import_error)

/-! ## Basic lemmas: digits bridge and PRNG contracts -/

/-- The fuelled digit function computes the reversed `Nat.digits`. -/
theorem decDigitsAux_eq (fuel : ℕ) :
    ∀ n, n ≤ fuel → decDigitsAux fuel n = (Nat.digits 10 n).reverse := by
  induction fuel with
  | zero =>
    intro n hn
    obtain rfl : n = 0 := Nat.le_zero.mp hn
    simp [decDigitsAux]
  | succ f ih =>
    intro n hn
    match n with
    | 0 => simp [decDigitsAux]
    | m + 1 =>
      rw [show decDigitsAux (f + 1) (m + 1)
            = decDigitsAux f ((m + 1) / 10) ++ [(m + 1) % 10] from rfl,
        Nat.digits_def' (by norm_num : 1 < 10) (Nat.succ_pos m),
        List.reverse_cons, ih ((m + 1) / 10) (by omega)]

/-- `decDigits` is `Nat.digits` base 10, most significant digit first. -/
theorem decDigits_eq (n : ℕ) : decDigits n = (Nat.digits 10 n).reverse :=
  decDigitsAux_eq n n le_rfl

/-- `randint lo hi` draws a value in the inclusive range `[lo, hi]`. -/
theorem randint_mem (lo hi s : ℕ) (h : lo ≤ hi) :
    lo ≤ (randint lo hi s).1 ∧ (randint lo hi s).1 ≤ hi := by
  have hmod : rand_next s % (hi + 1 - lo) < hi + 1 - lo :=
    Nat.mod_lt _ (by omega)
  unfold randint
  omega

/-- `rand_choice` on a nonempty list draws an element of the list. -/
theorem rand_choice_mem {α : Type} (l : List α) (d : α) (s : ℕ)
    (h : l ≠ []) : (rand_choice l d s).1 ∈ l := by
  have hlen : 0 < l.length := List.length_pos.mpr h
  have hidx : rand_next s % l.length < l.length := Nat.mod_lt _ hlen
  unfold rand_choice
  simp only [List.getD_eq_getElem?_getD, List.getElem?_eq_getElem hidx,
    Option.getD_some]
  exact List.getElem_mem hidx

/-! ## Sampling lemmas -/

theorem sample_pick_some {α : Type} {l : List α} {i : ℕ} {a : α} {r : List α}
    (h : sample_pick l i = some (a, r)) :
    ∃ hi : i < l.length, a = l[i] ∧ r = l.eraseIdx i := by
  unfold sample_pick at h
  match hget : l[i]? with
  | some b =>
    rw [hget] at h
    obtain ⟨rfl, rfl⟩ : b = a ∧ l.eraseIdx i = r := by
      simpa using h
    exact ⟨(List.getElem?_eq_some_iff.mp hget).1,
      ((List.getElem?_eq_some_iff.mp hget).2).symm, rfl⟩
  | none => rw [hget] at h; simp at h

theorem perm_pick {α : Type} {l : List α} {i : ℕ} {a : α} {r : List α}
    (h : sample_pick l i = some (a, r)) : l.Perm (a :: r) := by
  obtain ⟨hi, rfl, rfl⟩ := sample_pick_some h
  have h1 : l = l.take i ++ (l[i] :: l.drop (i + 1)) := by
    rw [List.getElem_cons_drop, List.take_append_drop]
  rw [List.eraseIdx_eq_take_drop_succ]
  conv_lhs => rw [h1]
  exact List.perm_middle

theorem pick_never_fails {α : Type} (l : List α) (s : ℕ)
    (hl : ¬ l.length = 0) :
    sample_pick l (randint 0 (l.length - 1) s).1 ≠ none := by
  have hidx : (randint 0 (l.length - 1) s).1 < l.length := by
    have h2 := (randint_mem 0 (l.length - 1) s (Nat.zero_le _)).2
    omega
  unfold sample_pick
  rw [List.getElem?_eq_getElem hidx]
  simp

theorem sample_eq_none_iff {α : Type} :
    ∀ (n : ℕ) (l : List α) (s : ℕ), sample l n s = none ↔ l.length < n := by
  intro n
  induction n with
  | zero => intro l s; simp [sample]
  | succ m ih =>
    intro l s
    by_cases hl : l.length = 0
    · rw [sample, if_pos hl]
      simp
      omega
    · have hl1 : 0 < l.length := Nat.pos_of_ne_zero hl
      rw [sample, if_neg hl]
      split
      · next heq => exact absurd heq (pick_never_fails l s hl)
      · next a rest heq =>
        obtain ⟨hi, _, rfl⟩ := sample_pick_some heq
        have herase : (l.eraseIdx (randint 0 (l.length - 1) s).1).length
            = l.length - 1 := by
          rw [List.length_eraseIdx]
          exact if_pos hi
        split
        · next heq2 =>
          have hlt := (ih _ _).mp heq2
          rw [herase] at hlt
          simp
          omega
        · next cs s2 heq2 =>
          have hnone : ¬ (l.length - 1 < m) := fun hcon => by
            have hx : (l.eraseIdx (randint 0 (l.length - 1) s).1).length < m := by
              rw [herase]; exact hcon
            have hy := (ih (l.eraseIdx (randint 0 (l.length - 1) s).1)
              (randint 0 (l.length - 1) s).2).mpr hx
            rw [heq2] at hy
            exact absurd hy (by simp)
          simp
          omega

theorem sample_sound {α : Type} :
    ∀ (n : ℕ) (l : List α) (s : ℕ) (cs : List α) (s' : ℕ),
      sample l n s = some (cs, s') →
      cs.length = n ∧ ∃ rest, (cs ++ rest).Perm l := by
  intro n
  induction n with
  | zero =>
    intro l s cs s' h
    rw [sample] at h
    obtain ⟨rfl, rfl⟩ : ([] : List α) = cs ∧ s = s' := by simpa using h
    exact ⟨rfl, ⟨l, by simp⟩⟩
  | succ m ih =>
    intro l s cs s' h
    by_cases hl : l.length = 0
    · rw [sample, if_pos hl] at h; simp at h
    · rw [sample, if_neg hl] at h
      split at h
      · next heq => simp at h
      · next a rest heq =>
        split at h
        · next heq2 => simp at h
        · next cs0 s0 heq2 =>
          obtain ⟨rfl, rfl⟩ : a :: cs0 = cs ∧ s0 = s' := by simpa using h
          obtain ⟨hlen, rest2, hperm⟩ := ih _ _ _ _ heq2
          refine ⟨by simp [hlen], rest2, ?_⟩
          have hp := perm_pick heq
          have : (a :: cs0) ++ rest2 = a :: (cs0 ++ rest2) := rfl
          rw [this]
          exact ((hperm.cons a).trans hp.symm)

theorem assign_qtys_len (items : List (String × String × ℕ)) :
    ∀ s, (assign_qtys items s).1.length = items.length := by
  induction items with
  | nil => intro s; simp [assign_qtys]
  | cons e rest ih => intro s; simp [assign_qtys, ih]

theorem assign_qtys_names (items : List (String × String × ℕ)) :
    ∀ s, (assign_qtys items s).1.map (fun li => li.name)
      = items.map (fun e => e.1) := by
  induction items with
  | nil => intro s; simp [assign_qtys]
  | cons e rest ih => intro s; simp [assign_qtys, ih]

theorem assign_qtys_mem (items : List (String × String × ℕ)) :
    ∀ s, ∀ li ∈ (assign_qtys items s).1,
      (li.name, li.unit, li.price) ∈ items ∧
      1 ≤ li.qty ∧ li.qty ≤ 40 ∧ li.amount = li.qty * li.price := by
  induction items with
  | nil => intro s li hli; simp [assign_qtys] at hli
  | cons e rest ih =>
    intro s li hli
    rw [assign_qtys] at hli
    rcases List.mem_cons.mp hli with hhead | htail
    · subst hhead
      have hq := randint_mem 1 40 s (by norm_num)
      exact ⟨List.mem_cons_self _ _, hq.1, hq.2, rfl⟩
    · obtain ⟨hmem, hrest⟩ := ih _ li htail
      exact ⟨List.mem_cons_of_mem _ hmem, hrest⟩

theorem catalog_names_nodup :
    (PRODUCT_CATALOG.map (fun e => e.1)).Nodup := by decide

/-- Claim C2: every generated document's line-item sampler returns between 5
and 12 line items whose product names are pairwise distinct and each present
in the catalog, each with quantity in [1, 40] and amount equal to
quantity × the catalog unit price exactly. -/
theorem claim_C2 (s : ℕ) (lines : List LineItem) (s' : ℕ)
    (h : choose_line_items PRODUCT_CATALOG s = some (lines, s')) :
    5 ≤ lines.length ∧ lines.length ≤ 12 ∧
    (lines.map (fun li => li.name)).Nodup ∧
    ∀ li ∈ lines, (li.name, li.unit, li.price) ∈ PRODUCT_CATALOG ∧
      1 ≤ li.qty ∧ li.qty ≤ 40 ∧ li.amount = li.qty * li.price := by
  unfold choose_line_items at h
  split at h
  · simp at h
  · next items s2 heq =>
    obtain ⟨rfl, rfl⟩ : (assign_qtys items s2).1 = lines
        ∧ (assign_qtys items s2).2 = s' := by
      have := Option.some.inj h
      exact ⟨congrArg Prod.fst this, congrArg Prod.snd this⟩
    obtain ⟨hlen, rest, hperm⟩ := sample_sound _ _ _ _ _ heq
    have hn := randint_mem 5 12 s (by norm_num)
    constructor
    · rw [assign_qtys_len, hlen]; exact hn.1
    constructor
    · rw [assign_qtys_len, hlen]; exact hn.2
    constructor
    · rw [assign_qtys_names]
      have hmapperm := hperm.map (fun e => e.1)
      rw [List.map_append] at hmapperm
      have hnd := (hmapperm.nodup_iff).mpr catalog_names_nodup
      exact hnd.of_append_left
    · intro li hli
      obtain ⟨hmem, hrest⟩ := assign_qtys_mem items s2 li hli
      exact ⟨hperm.subset (List.mem_append_left rest hmem), hrest⟩

/-! ## Decimal-format lemmas: zero-padded sequence numbers are injective -/

/-- `decChars` via `Nat.digits`. -/
theorem decChars_eq (n : ℕ) :
    decChars n = (Nat.digits 10 n).reverse.map Nat.digitChar := by
  rw [decChars, decDigits_eq]

/-- Length of the digit-character string. -/
theorem decChars_length (n : ℕ) :
    (decChars n).length = (Nat.digits 10 n).length := by
  rw [decChars_eq]; simp

/-- `Nat.digitChar` is injective on single digits (checked by evaluation). -/
theorem digitChar_inj_fin :
    ∀ x y : Fin 10, Nat.digitChar x.val = Nat.digitChar y.val → x = y := by
  decide

/-- `Nat.digitChar` is injective on values below 10. -/
theorem digitChar_inj {x y : ℕ} (hx : x < 10) (hy : y < 10)
    (h : Nat.digitChar x = Nat.digitChar y) : x = y := by
  have hfin := digitChar_inj_fin ⟨x, hx⟩ ⟨y, hy⟩ h
  exact congrArg Fin.val hfin

/-- Only the digit 0 maps to the character `'0'`. -/
theorem digitChar_ne_zero_fin :
    ∀ x : Fin 10, x.val ≠ 0 → Nat.digitChar x.val ≠ '0' := by
  decide

/-- Mapping `Nat.digitChar` over digit lists is injective. -/
theorem map_digitChar_inj :
    ∀ (l1 l2 : List ℕ), (∀ x ∈ l1, x < 10) → (∀ x ∈ l2, x < 10) →
      l1.map Nat.digitChar = l2.map Nat.digitChar → l1 = l2 := by
  intro l1
  induction l1 with
  | nil => intro l2 _ _ h; cases l2 <;> simp_all
  | cons x t ih =>
    intro l2 h1 h2 h
    cases l2 with
    | nil => simp at h
    | cons y t2 =>
      simp only [List.map_cons, List.cons.injEq] at h
      have hx := h1 x (List.mem_cons_self x t)
      have hy := h2 y (List.mem_cons_self y t2)
      rw [digitChar_inj hx hy h.1,
        ih t2 (fun z hz => h1 z (List.mem_cons_of_mem _ hz))
          (fun z hz => h2 z (List.mem_cons_of_mem _ hz)) h.2]

/-- All base-10 digits are below 10. -/
theorem decChars_all_lt (n : ℕ) : ∀ x ∈ (Nat.digits 10 n).reverse, x < 10 :=
  fun _ hx => Nat.digits_lt_base (by norm_num) (List.mem_reverse.mp hx)

/-- The digit-character string determines the number. -/
theorem decChars_inj {i j : ℕ} (h : decChars i = decChars j) : i = j := by
  rw [decChars_eq, decChars_eq] at h
  have hrev := map_digitChar_inj _ _ (decChars_all_lt i) (decChars_all_lt j) h
  have hd : Nat.digits 10 i = Nat.digits 10 j := by
    have hrr := congrArg List.reverse hrev
    simpa using hrr
  calc i = Nat.ofDigits 10 (Nat.digits 10 i) := (Nat.ofDigits_digits 10 i).symm
    _ = Nat.ofDigits 10 (Nat.digits 10 j) := by rw [hd]
    _ = j := Nat.ofDigits_digits 10 j

/-- A nonzero number's digit string has no leading `'0'`. -/
theorem decChars_first_ne_zero {n : ℕ} (hn : n ≠ 0)
    (h0 : 0 < (decChars n).length) : (decChars n).get ⟨0, h0⟩ ≠ '0' := by
  have hne : Nat.digits 10 n ≠ [] := Nat.digits_ne_nil_iff_ne_zero.mpr hn
  have hlen : 0 < (Nat.digits 10 n).length := List.length_pos.mpr hne
  have hrlen : 0 < (Nat.digits 10 n).reverse.length := by simpa using hlen
  have h1 : (decChars n).get ⟨0, h0⟩
      = Nat.digitChar ((Nat.digits 10 n).reverse.get ⟨0, hrlen⟩) := by
    simp [decChars_eq]
  have h2 : (Nat.digits 10 n).reverse.get ⟨0, hrlen⟩
      = (Nat.digits 10 n).getLast hne := by
    rw [List.get_eq_getElem, List.getElem_reverse]
    simp [List.getLast_eq_getElem]
  rw [h1, h2]
  have hlast10 : (Nat.digits 10 n).getLast hne < 10 :=
    Nat.digits_lt_base (by norm_num) (List.getLast_mem hne)
  exact digitChar_ne_zero_fin ⟨_, hlast10⟩ (Nat.getLast_digit_ne_zero 10 hn)

/-- Zero has an empty digit string. -/
theorem decChars_zero : decChars 0 = [] := by
  simp [decChars, decDigits, decDigitsAux]

/-- Two zero-padded strings with digit parts of different lengths differ:
the shorter one has a `'0'` where the longer one has its nonzero leading
digit. -/
theorem zfill3_aux {i j : ℕ}
    (hlt : (decChars i).length < (decChars j).length)
    (hd : List.replicate (3 - (decChars i).length) '0' ++ decChars i
        = List.replicate (3 - (decChars j).length) '0' ++ decChars j) :
    False := by
  have hj : j ≠ 0 := by
    intro h0
    rw [h0, decChars_zero] at hlt
    simp at hlt
  have hlen := congrArg List.length hd
  simp only [List.length_append, List.length_replicate] at hlen
  have hcj3 : (decChars j).length ≤ 3 := by omega
  have hab : 3 - (decChars j).length < 3 - (decChars i).length := by omega
  have hcjpos : 0 < (decChars j).length := by omega
  have h2 := congrArg (fun l => l[3 - (decChars j).length]?) hd
  simp only [] at h2
  rw [List.getElem?_append, List.getElem?_append, List.length_replicate,
    List.length_replicate, if_pos hab, if_neg (Nat.lt_irrefl _),
    Nat.sub_self, List.getElem?_replicate, if_pos hab,
    List.getElem?_eq_getElem hcjpos] at h2
  exact decChars_first_ne_zero hj hcjpos (Option.some.inj h2).symm

/-- The zero-padded 3-wide decimal format is injective (for every width of
input, not only 3-digit ones): distinct sequence numbers give distinct
formatted strings. -/
theorem zfill3_inj {i j : ℕ} (h : zfill 3 i = zfill 3 j) : i = j := by
  have hd : List.replicate (3 - (decChars i).length) '0' ++ decChars i
      = List.replicate (3 - (decChars j).length) '0' ++ decChars j :=
    congrArg String.data h
  rcases Nat.lt_trichotomy (decChars i).length (decChars j).length with
    hlt | heq | hgt
  · exact absurd hd (fun hd => zfill3_aux hlt hd)
  · have hpair := List.append_inj hd (by simp [heq])
    exact decChars_inj hpair.2
  · exact absurd hd.symm (fun hd => zfill3_aux hgt hd)

/-- For sequence numbers up to 999 the padded format is exactly 3 characters
wide. -/
theorem zfill_length_three {i : ℕ} (hi : i ≤ 999) : (zfill 3 i).length = 3 := by
  have hlen : (Nat.digits 10 i).length ≤ 3 := by
    rcases Nat.eq_zero_or_pos i with h0 | hpos
    · subst h0; simp
    · by_contra hcon
      push_neg at hcon
      have h1 : 10 ^ (Nat.digits 10 i).length ≤ 10 * i :=
        Nat.base_pow_length_digits_le 10 i (by norm_num) (by omega)
      have h2 : (10 : ℕ) ^ 4 ≤ 10 ^ (Nat.digits 10 i).length :=
        Nat.pow_le_pow_right (by norm_num) (by omega)
      have h3 := le_trans h2 h1
      norm_num at h3
      omega
  have hsplit : (zfill 3 i).length
      = (3 - (decChars i).length) + (decChars i).length := by
    simp [zfill, String.length]
  rw [hsplit, decChars_length]
  omega

/-- Distinct iteration indices give distinct invoice numbers (hence distinct
output file names) within one run. -/
theorem random_invoice_number_inj (today : ℕ) {i j : ℕ} (hij : i ≠ j) :
    random_invoice_number today i ≠ random_invoice_number today j := by
  intro h
  apply hij
  apply zfill3_inj
  have hd := congrArg String.data h
  unfold random_invoice_number at hd
  rw [String.data_append, String.data_append] at hd
  have hz := (List.append_inj hd rfl).2
  exact String.ext hz

theorem main_loop_totals_eq (lines : List LineItem) (rateBp : ℕ) :
    main_loop_totals lines rateBp =
      ((lines.foldl (fun acc li => acc + li.amount) 0) * 10000,
       (lines.foldl (fun acc li => acc + li.amount) 0) * rateBp,
       (lines.foldl (fun acc li => acc + li.amount) 0) * 10000
         + (lines.foldl (fun acc li => acc + li.amount) 0) * rateBp) := rfl

theorem gen_invoice_fields {today i s : ℕ} {d : DocumentRecord} {s' : ℕ}
    (h : gen_invoice today i s = some (d, s')) :
    d.invoiceNumber = random_invoice_number today i ∧
    (∃ off, off ≤ 25 ∧ d.issued = today - 30 + off) ∧
    (∃ k, k ∈ ([7, 14, 21, 30] : List ℕ) ∧ d.due = d.issued + k) ∧
    d.taxRateBp ∈ TAX_RATES_BP ∧
    (∃ s0 s5, choose_line_items PRODUCT_CATALOG s0 = some (d.lines, s5)) ∧
    (d.subtotal, d.tax, d.grand) = main_loop_totals d.lines d.taxRateBp := by
  unfold gen_invoice at h
  generalize make_restaurant_name s = rN at h
  generalize make_address rN.2 = rA at h
  have hoff := (randint_mem 0 25 rA.2 (by norm_num)).2
  generalize randint 0 25 rA.2 = rO at h hoff
  have hdue := rand_choice_mem [7, 14, 21, 30] 7 rO.2 (by decide)
  generalize rand_choice [7, 14, 21, 30] 7 rO.2 = rD at h hdue
  split at h
  · simp at h
  · next lines s5 heq =>
    have htax := rand_choice_mem TAX_RATES_BP 600 s5 (by decide)
    generalize rand_choice TAX_RATES_BP 600 s5 = rT at h htax
    simp only [Option.some.injEq, Prod.mk.injEq] at h
    obtain ⟨hd, hs⟩ := h
    subst hd
    exact ⟨rfl, ⟨rO.1, hoff, rfl⟩, ⟨rD.1, hdue, rfl⟩, htax, ⟨_, s5, heq⟩, rfl⟩

theorem choose_line_items_none_iff (cat : List (String × String × ℕ))
    (s : ℕ) :
    (choose_line_items cat s = none ↔ cat.length < (randint 5 12 s).1) := by
  unfold choose_line_items
  split
  · next heq => exact iff_of_true rfl ((sample_eq_none_iff _ _ _).mp heq)
  · next items s2 heq =>
    apply iff_of_false (by simp)
    intro hcon
    have h2 := (sample_eq_none_iff (randint 5 12 s).1 cat
      (randint 5 12 s).2).mpr hcon
    rw [heq] at h2
    exact absurd h2 (by simp)

theorem gen_invoice_isSome (today i s : ℕ) : gen_invoice today i s ≠ none := by
  unfold gen_invoice
  split
  · next heq =>
    intro _
    have hlt := (choose_line_items_none_iff PRODUCT_CATALOG
      (rand_choice [7, 14, 21, 30] 7
        (randint 0 25 (make_address (make_restaurant_name s).2).2).2).2).mp heq
    have hlen : PRODUCT_CATALOG.length = 40 := by rfl
    have hn := (randint_mem 5 12
      (rand_choice [7, 14, 21, 30] 7
        (randint 0 25 (make_address (make_restaurant_name s).2).2).2).2
      (by norm_num)).2
    omega
  · simp

theorem run_from_spec (today : ℕ) :
    ∀ (cnt i s : ℕ), ∃ docs sEnd,
      run_from today i cnt s = some (docs, sEnd) ∧ docs.length = cnt ∧
      ∀ (k : ℕ) (hk : k < docs.length),
        (docs.get ⟨k, hk⟩).invoiceNumber
          = random_invoice_number today (i + k) := by
  intro cnt
  induction cnt with
  | zero =>
    intro i s
    exact ⟨[], s, rfl, rfl, by intro k hk; simp at hk⟩
  | succ m ih =>
    intro i s
    rcases hg : gen_invoice today i s with _ | p
    · exact absurd hg (gen_invoice_isSome today i s)
    · obtain ⟨d, s1⟩ := p
      obtain ⟨docs, sEnd, hrun, hlen, hnum⟩ := ih (i + 1) s1
      refine ⟨d :: docs, sEnd, ?_, by simp [hlen], ?_⟩
      · show (gen_invoice today i s).bind _ = _
        rw [hg, Option.some_bind, hrun, Option.map_some']
      · intro k hk
        match k with
        | 0 =>
          have hfield := (gen_invoice_fields hg).1
          simpa using hfield
        | k + 1 =>
          have hrec := hnum k (by simpa using hk)
          have harith : i + 1 + k = i + (k + 1) := by omega
          simpa [harith] using hrec

theorem string_append_right_cancel {a b c : String} (h : a ++ c = b ++ c) :
    a = b := by
  have hd := congrArg String.data h
  rw [String.data_append, String.data_append] at hd
  exact String.ext (List.append_inj' hd rfl).1

theorem final_dir_clean :
    ∀ (w acc : List String), w.Nodup → (∀ x ∈ w, x ∉ acc) →
      final_dir acc w = acc ++ w := by
  intro w
  induction w with
  | nil => intro acc _ _; simp [final_dir]
  | cons x t ih =>
    intro acc hnd hdisj
    have hx : x ∉ acc := hdisj x (List.mem_cons_self x t)
    rw [final_dir, write_pdf, if_neg hx,
      ih (acc ++ [x]) (List.Nodup.of_cons hnd) ?_]
    · simp
    · intro y hy
      simp only [List.mem_append, List.mem_singleton]
      rintro (hyacc | rfl)
      · exact hdisj y (List.mem_cons_of_mem x hy) hyacc
      · exact (List.nodup_cons.mp hnd).1 hy

theorem docs_filenames_nodup (today i : ℕ) (docs : List DocumentRecord)
    (hnum : ∀ (k : ℕ) (hk : k < docs.length),
      (docs.get ⟨k, hk⟩).invoiceNumber = random_invoice_number today (i + k)) :
    (docs.map (fun d => d.invoiceNumber ++ ".pdf")).Nodup := by
  have hmap : docs.map (fun d => d.invoiceNumber ++ ".pdf")
      = (List.range docs.length).map
          (fun k => random_invoice_number today (i + k) ++ ".pdf") := by
    apply List.ext_getElem (by simp)
    intro k h1 h2
    simp only [List.getElem_map, List.getElem_range]
    rw [← List.get_eq_getElem docs ⟨k, by simpa using h1⟩,
      hnum k (by simpa using h1)]
  rw [hmap]
  refine List.Nodup.map_on ?_ (List.nodup_range docs.length)
  intro k1 h1 k2 h2 heq
  by_contra hne
  have hrin := string_append_right_cancel heq
  exact random_invoice_number_inj today (by omega) hrin

theorem run_spec (seed N today : ℕ) :
    ∃ r, run seed N today [] = some r ∧
      (r.manifestCsv.drop 1).length = N ∧
      r.zipEntries
        = (r.manifestCsv.drop 1).map (fun row => row.getD 0 "" ++ ".pdf") := by
  obtain ⟨docs, sEnd, hrun, hlen, hnum⟩ := run_from_spec today N 1 (rand_seed seed)
  refine ⟨_, by rw [run, hrun, Option.map_some'], ?_, ?_⟩
  · simpa using hlen
  · show final_dir [] (docs.map (fun d => d.invoiceNumber ++ ".pdf"))
      = ((manifest_header :: docs.map doc_to_row).drop 1).map
          (fun row => row.getD 0 "" ++ ".pdf")
    rw [final_dir_clean _ _ (docs_filenames_nodup today 1 docs hnum)
      (by intro x _ hx; simp at hx)]
    simp only [List.nil_append, List.drop_succ_cons, List.drop_zero,
      List.map_map]
    rfl

theorem run_deterministic (seed N today : ℕ) (init1 init2 : List String)
    {r1 r2 : RunResult} (h1 : run seed N today init1 = some r1)
    (h2 : run seed N today init2 = some r2) :
    r1.manifestCsv = r2.manifestCsv ∧ r1.catalogCsv = r2.catalogCsv := by
  obtain ⟨docs, sEnd, hrun, -, -⟩ := run_from_spec today N 1 (rand_seed seed)
  rw [run, hrun, Option.map_some'] at h1 h2
  obtain rfl := (Option.some.inj h1).symm
  obtain rfl := (Option.some.inj h2).symm
  exact ⟨rfl, rfl⟩

theorem run_zero (seed today : ℕ) :
    run seed 0 today []
      = some { catalogCsv := catalog_csv_rows,
               manifestCsv := [manifest_header], zipEntries := [] } := rfl

theorem run_catalog_const (seed N today : ℕ) (init : List String) :
    (run seed N today init).map (fun r => r.catalogCsv)
      = some catalog_csv_rows := by
  obtain ⟨docs, sEnd, hrun, -, -⟩ := run_from_spec today N 1 (rand_seed seed)
  rw [run, hrun, Option.map_some', Option.map_some']

/-! ## Claim-level helpers and concrete instances -/

/-- The rounding operation the spec's tax property asserts ("rounded to
2-decimal currency precision"), on a micro-dollar value: round to the nearest
whole cent.  The source applies no such rounding when computing totals; this
definition exists to compare the spec's asserted value with the computed
one. -/
def round2_micro (m : ℕ) : ℕ := ((m + 5000) / 10000) * 10000

/-- Python's `sum` is a left fold from 0; it agrees with `List.sum` of the
mapped amounts. -/
theorem foldl_add_amount (lines : List LineItem) :
    lines.foldl (fun acc li => acc + li.amount) 0
      = (lines.map (fun li => li.amount)).sum := by
  have hgen : ∀ (l : List LineItem) (c : ℕ),
      l.foldl (fun acc li => acc + li.amount) c
        = c + (l.map (fun li => li.amount)).sum := by
    intro l
    induction l with
    | nil => intro c; simp
    | cons x t ih =>
      intro c
      simp only [List.foldl_cons, List.map_cons, List.sum_cons, ih]
      omega
  simpa using hgen lines 0

/-- The document generated by the model's first loop iteration with seed 42
on day 20000 (2024-10-04), computed by evaluation; a shared concrete instance
for witnesses. -/
def sampleDoc : DocumentRecord :=
  { invoiceNumber := "INV-20241004-001",
    issued := 19980,
    due := 20010,
    toName := "The Velvet Spoon",
    addr1 := "206 Front St",
    addr2 := "Philadelphia, PA 19163",
    lines :=
      [{ name := "Kitchen Towels (Pack of 6)", unit := "pack", qty := 35,
         price := 1099, amount := 38465 },
       { name := "Sheet Pan Half", unit := "each", qty := 20,
         price := 925, amount := 18500 },
       { name := "Plastic Wrap 2000ft", unit := "roll", qty := 1,
         price := 2425, amount := 2425 },
       { name := "Baking Parchment Roll", unit := "roll", qty := 34,
         price := 780, amount := 26520 },
       { name := "Chef Apron", unit := "each", qty := 39,
         price := 1200, amount := 46800 }],
    taxRateBp := 725,
    subtotal := 1327100000,
    tax := 96214750,
    grand := 1423314750 }

/-- The first iteration with seed 42 on day 20000 produces `sampleDoc`. -/
theorem gen_invoice_sample :
    gen_invoice 20000 1 (rand_seed 42) = some (sampleDoc, 1972995559) := by
  decide

/-- The line items sampled from stream state 3, computed by evaluation; a
shared concrete instance for witnesses. -/
def sampleLines : List LineItem :=
  [{ name := "Paring Knife 3.5in", unit := "each", qty := 11,
     price := 1250, amount := 13750 },
   { name := "Cutting Board - Plastic", unit := "each", qty := 20,
     price := 1299, amount := 25980 },
   { name := "Silicone Baking Mat Half", unit := "each", qty := 33,
     price := 1120, amount := 36960 },
   { name := "Whisk 10in", unit := "each", qty := 10,
     price := 380, amount := 3800 },
   { name := "Plastic Wrap 2000ft", unit := "roll", qty := 39,
     price := 2425, amount := 94575 }]

/-- Sampling at stream state 3 produces `sampleLines`. -/
theorem choose_line_items_sample :
    choose_line_items PRODUCT_CATALOG 3 = some (sampleLines, 1080897238) := by
  decide

/-! ## Claim theorems -/

/-- Claim C2 witness: the concrete sampling at stream state 3 satisfies all
the guarantees. -/
theorem claim_C2_witness :
    5 ≤ sampleLines.length ∧ sampleLines.length ≤ 12 ∧
    (sampleLines.map (fun li => li.name)).Nodup ∧
    ∀ li ∈ sampleLines, (li.name, li.unit, li.price) ∈ PRODUCT_CATALOG ∧
      1 ≤ li.qty ∧ li.qty ≤ 40 ∧ li.amount = li.qty * li.price :=
  claim_C2 3 sampleLines 1080897238 choose_line_items_sample

/-- Claim C1 (amended): for every generated document the tax rate is in the
fixed seven-value set, the subtotal is the exact sum of line amounts, the
computed tax equals subtotal × rate exactly — with no rounding; rounding
happens only when formatting for display — and the grand total equals
subtotal + tax exactly.  (Units: subtotal/tax/grand in micro-dollars,
amounts in cents, rate in basis points, so the equations are the source's
real-number equations exactly.) -/
theorem claim_C1 {today i s : ℕ} {d : DocumentRecord} {s' : ℕ}
    (h : gen_invoice today i s = some (d, s')) :
    d.taxRateBp ∈ TAX_RATES_BP ∧
    d.subtotal = (d.lines.map (fun li => li.amount)).sum * 10000 ∧
    d.tax = (d.lines.map (fun li => li.amount)).sum * d.taxRateBp ∧
    d.grand = d.subtotal + d.tax := by
  obtain ⟨-, -, -, htax, -, htot⟩ := gen_invoice_fields h
  rw [main_loop_totals_eq] at htot
  simp only [Prod.mk.injEq] at htot
  have hF := foldl_add_amount d.lines
  exact ⟨htax, by rw [htot.1, hF], by rw [htot.2.1, hF],
    by rw [htot.2.2, ← htot.1, ← htot.2.1]⟩

/-- Claim C1 counterexample: the claim as stated says the computed tax equals
subtotal × rate rounded to 2-decimal currency precision; on the generated
document of the first iteration (seed 42, day 20000) the computed tax is
96214750 µ$ ($96.21475) while the rounded value would be 96210000 µ$
($96.21), so the code does not round. -/
theorem claim_C1_counterexample :
    (gen_invoice 20000 1 (rand_seed 42)).map
        (fun p => (p.1.taxRateBp, p.1.tax, round2_micro p.1.tax))
      = some (725, 96214750, 96210000)
    ∧ (725 : ℕ) ∈ TAX_RATES_BP ∧ (96214750 : ℕ) ≠ 96210000 :=
  ⟨by decide, by decide, by decide⟩

/-- Claim C1 witness: the amended totals equations hold on the concrete
seed-42 document. -/
theorem claim_C1_witness :
    sampleDoc.taxRateBp ∈ TAX_RATES_BP ∧
    sampleDoc.subtotal
      = (sampleDoc.lines.map (fun li => li.amount)).sum * 10000 ∧
    sampleDoc.tax
      = (sampleDoc.lines.map (fun li => li.amount)).sum * sampleDoc.taxRateBp ∧
    sampleDoc.grand = sampleDoc.subtotal + sampleDoc.tax :=
  claim_C1 gen_invoice_sample

/-- The artifacts of a run with `N = 0` and a clean directory: header-only
manifest, empty archive, full catalog export. -/
def empty_run_result : RunResult :=
  { catalogCsv := catalog_csv_rows, manifestCsv := [manifest_header],
    zipEntries := [] }

/-- Claim C3 (amended): after a run requesting `N` documents into a directory
with no pre-existing `.pdf` files, the manifest has exactly `N` data rows and
the archive contains exactly the `N` files named by the manifest's invoice
numbers, in order (so each manifest entry has its archived file and vice
versa).  The clean-directory hypothesis is forced by the source's
`glob("*.pdf")` bundling, which also picks up stale files. -/
theorem claim_C3 (seed N today : ℕ) {r : RunResult}
    (h : run seed N today [] = some r) :
    (r.manifestCsv.drop 1).length = N ∧
    r.zipEntries
      = (r.manifestCsv.drop 1).map (fun row => row.getD 0 "" ++ ".pdf") := by
  obtain ⟨r2, hr2, h1, h2⟩ := run_spec seed N today
  rw [hr2] at h
  obtain rfl := Option.some.inj h
  exact ⟨h1, h2⟩

/-- Claim C3 counterexample: with a stale `stale.pdf` in the output
directory, a run requesting 0 documents produces an empty manifest but a
1-entry archive, so the archive does not match the manifest invoice
numbers. -/
theorem claim_C3_counterexample :
    (run 0 0 0 ["stale.pdf"]).map
        (fun r => ((r.manifestCsv.drop 1).length, r.zipEntries))
      = some (0, ["stale.pdf"])
    ∧ (["stale.pdf"] : List String).length ≠ 0 :=
  ⟨by decide, by decide⟩

/-- Claim C3 witness: the amended statement at `N = 0` with a clean
directory. -/
theorem claim_C3_witness :
    (empty_run_result.manifestCsv.drop 1).length = 0 ∧
    empty_run_result.zipEntries
      = (empty_run_result.manifestCsv.drop 1).map
          (fun row => row.getD 0 "" ++ ".pdf") :=
  claim_C3 0 0 5 rfl

/-- Claim C4: two runs with the same seed, the same `N`, and the same current
date produce identical manifest and catalog exports — row-identical and
byte-identical — regardless of what else is in the output directory. -/
theorem claim_C4 (seed N today : ℕ) (init1 init2 : List String)
    {r1 r2 : RunResult} (h1 : run seed N today init1 = some r1)
    (h2 : run seed N today init2 = some r2) :
    r1.manifestCsv = r2.manifestCsv ∧ r1.catalogCsv = r2.catalogCsv ∧
    render_csv r1.manifestCsv = render_csv r2.manifestCsv ∧
    render_csv r1.catalogCsv = render_csv r2.catalogCsv := by
  obtain ⟨hm, hc⟩ := run_deterministic seed N today init1 init2 h1 h2
  exact ⟨hm, hc, by rw [hm], by rw [hc]⟩

/-- The artifacts of a `N = 0` run over a directory holding one stale
`x.pdf`. -/
def stale_run_result : RunResult :=
  { catalogCsv := catalog_csv_rows, manifestCsv := [manifest_header],
    zipEntries := ["x.pdf"] }

/-- Claim C4 witness: two concrete runs with equal seed/N/date but different
directory contents have identical exports. -/
theorem claim_C4_witness :
    empty_run_result.manifestCsv = stale_run_result.manifestCsv ∧
    empty_run_result.catalogCsv = stale_run_result.catalogCsv ∧
    render_csv empty_run_result.manifestCsv
      = render_csv stale_run_result.manifestCsv ∧
    render_csv empty_run_result.catalogCsv
      = render_csv stale_run_result.catalogCsv :=
  claim_C4 42 0 5 [] ["x.pdf"] rfl rfl

/-- Claim C5: every generated invoice number has the deterministic format
`INV-{YYYYMMDD}-{sequence}` with the 1-based sequence number zero-padded to
3 digits (exactly 3 characters for sequence numbers up to 999), and distinct
iteration indices always give distinct invoice numbers — hence no two
iterations write the same output filename. -/
theorem claim_C5 (today i j s : ℕ) {d : DocumentRecord} {s' : ℕ}
    (h : gen_invoice today i s = some (d, s')) :
    d.invoiceNumber = ("INV-" ++ yyyymmdd today ++ "-") ++ zfill 3 i ∧
    (1 ≤ i → i ≤ 999 → (zfill 3 i).length = 3) ∧
    (i ≠ j → random_invoice_number today i ≠ random_invoice_number today j) :=
  ⟨(gen_invoice_fields h).1, fun _ hi => zfill_length_three hi,
    fun hij => random_invoice_number_inj today hij⟩

/-- Claim C5 witness: the seed-42 first invoice is numbered
`INV-20241004-001` (format and 3-character padding), and sequence numbers 1
and 2 give different filenames. -/
theorem claim_C5_witness :
    sampleDoc.invoiceNumber = ("INV-" ++ yyyymmdd 20000 ++ "-") ++ zfill 3 1 ∧
    (zfill 3 1).length = 3 ∧
    random_invoice_number 20000 1 ≠ random_invoice_number 20000 2 := by
  obtain ⟨h1, h2, h3⟩ := claim_C5 20000 1 2 (rand_seed 42) gen_invoice_sample
  exact ⟨h1, h2 (by decide) (by decide), h3 (by decide)⟩

/-- Claim C6 (amended): line-item sampling fails exactly when the drawn
count — uniform in [5, 12] — exceeds the catalog size.  Hence with at least
12 catalog entries the failure is unreachable, and with fewer than 5 entries
every sampling attempt fails; for sizes 5-11 failure depends on the draw, so
it is not guaranteed on the first attempt.  (The source has no explicit size
check or dedicated error type: the failure is `random.sample`'s
`ValueError`, propagated and not retried.) -/
theorem claim_C6 (cat : List (String × String × ℕ)) (s : ℕ) :
    (choose_line_items cat s = none ↔ cat.length < (randint 5 12 s).1) ∧
    (12 ≤ cat.length → choose_line_items cat s ≠ none) ∧
    (cat.length < 5 → choose_line_items cat s = none) := by
  have hiff := choose_line_items_none_iff cat s
  have hn := randint_mem 5 12 s (by norm_num)
  refine ⟨hiff, ?_, ?_⟩
  · intro h12 hcon
    have hlt := hiff.mp hcon
    omega
  · intro h5
    exact hiff.mpr (by omega)

/-- Claim C6 counterexample: an 11-entry catalog is below the claimed
12-entry threshold, yet the first sampling attempt at stream state 3 (which
draws a count of 5) succeeds — so sampling does not fail immediately
whenever the catalog has fewer than 12 entries. -/
theorem claim_C6_counterexample :
    (PRODUCT_CATALOG.take 11).length < 12 ∧
    (choose_line_items (PRODUCT_CATALOG.take 11) 3).isSome = true :=
  ⟨by decide, by decide⟩

/-- Claim C6 witness: the full 40-entry catalog never fails, and a 4-entry
catalog always fails. -/
theorem claim_C6_witness :
    choose_line_items PRODUCT_CATALOG 0 ≠ none ∧
    choose_line_items (PRODUCT_CATALOG.take 4) 0 = none :=
  ⟨(claim_C6 PRODUCT_CATALOG 0).2.1 (by decide),
   (claim_C6 (PRODUCT_CATALOG.take 4) 0).2.2 (by decide)⟩

/-- String append is associative (via the underlying character lists). -/
theorem string_append_assoc (a b c : String) :
    (a ++ b) ++ c = a ++ (b ++ c) := by
  apply String.ext
  rw [String.data_append, String.data_append, String.data_append,
    String.data_append, List.append_assoc]

/-- Claim C7: when the document-layout dependency (reportlab) is unavailable
at startup, the process terminates with the fatal descriptive error — which
names the missing `reportlab` capability and suggests `pip install
reportlab` — and never reaches the batch run, so no output is produced. -/
theorem claim_C7 (e : String) (seed N today : ℕ) (init : List String) :
    program false e seed N today init
        = Except.error (reportlab_error_msg e) ∧
    (∀ r, program false e seed N today init ≠ Except.ok r) ∧
    (∃ pre post, reportlab_error_msg e = pre ++ ("reportlab" ++ post)) ∧
    (∃ pre post,
      reportlab_error_msg e = pre ++ ("pip install reportlab" ++ post)) := by
  refine ⟨rfl, ?_, ?_, ?_⟩
  · intro r hcon
    have h0 : program false e seed N today init
        = Except.error (reportlab_error_msg e) := rfl
    rw [h0] at hcon
    exact absurd hcon (by simp)
  · refine ⟨"This environment needs the \x27",
      "\x27 package to generate PDFs. Please install it (e.g., `pip install reportlab`) and rerun. Import error: " ++ e, ?_⟩
    have hconc : ("This environment needs the \x27reportlab\x27 package to generate PDFs. "
          ++ "Please install it (e.g., `pip install reportlab`) and rerun. "
          ++ "Import error: ")
        = "This environment needs the \x27"
          ++ ("reportlab"
            ++ "\x27 package to generate PDFs. Please install it (e.g., `pip install reportlab`) and rerun. Import error: ") := by
      decide
    calc reportlab_error_msg e
        = ("This environment needs the \x27reportlab\x27 package to generate PDFs. "
            ++ "Please install it (e.g., `pip install reportlab`) and rerun. "
            ++ "Import error: ") ++ e := rfl
      _ = ("This environment needs the \x27"
            ++ ("reportlab"
              ++ "\x27 package to generate PDFs. Please install it (e.g., `pip install reportlab`) and rerun. Import error: ")) ++ e := by
          rw [hconc]
      _ = "This environment needs the \x27"
            ++ (("reportlab"
              ++ "\x27 package to generate PDFs. Please install it (e.g., `pip install reportlab`) and rerun. Import error: ") ++ e) :=
          string_append_assoc _ _ _
      _ = "This environment needs the \x27"
            ++ ("reportlab"
              ++ ("\x27 package to generate PDFs. Please install it (e.g., `pip install reportlab`) and rerun. Import error: " ++ e)) := by
          rw [string_append_assoc]
  · refine ⟨"This environment needs the \x27reportlab\x27 package to generate PDFs. Please install it (e.g., `",
      "`) and rerun. Import error: " ++ e, ?_⟩
    have hconc : ("This environment needs the \x27reportlab\x27 package to generate PDFs. "
          ++ "Please install it (e.g., `pip install reportlab`) and rerun. "
          ++ "Import error: ")
        = "This environment needs the \x27reportlab\x27 package to generate PDFs. Please install it (e.g., `"
          ++ ("pip install reportlab" ++ "`) and rerun. Import error: ") := by
      decide
    calc reportlab_error_msg e
        = ("This environment needs the \x27reportlab\x27 package to generate PDFs. "
            ++ "Please install it (e.g., `pip install reportlab`) and rerun. "
            ++ "Import error: ") ++ e := rfl
      _ = ("This environment needs the \x27reportlab\x27 package to generate PDFs. Please install it (e.g., `"
            ++ ("pip install reportlab" ++ "`) and rerun. Import error: ")) ++ e := by
          rw [hconc]
      _ = "This environment needs the \x27reportlab\x27 package to generate PDFs. Please install it (e.g., `"
            ++ (("pip install reportlab" ++ "`) and rerun. Import error: ") ++ e) :=
          string_append_assoc _ _ _
      _ = "This environment needs the \x27reportlab\x27 package to generate PDFs. Please install it (e.g., `"
            ++ ("pip install reportlab" ++ ("`) and rerun. Import error: " ++ e)) := by
          rw [string_append_assoc]

/-- Claim C8: for every generated document (with the run's current day at
least 30, as any real date is), the issued date is the base date
(today − 30 days) plus an offset of at most 25 days — hence between
today − 30 and today − 5 inclusive — and the due date is the issued date
plus one of 7, 14, 21 or 30 days. -/
theorem claim_C8 (today i s : ℕ) {d : DocumentRecord} {s' : ℕ}
    (h30 : 30 ≤ today) (h : gen_invoice today i s = some (d, s')) :
    (∃ off, off ≤ 25 ∧ d.issued = today - 30 + off) ∧
    today - 30 ≤ d.issued ∧ d.issued ≤ today - 5 ∧
    (∃ k, k ∈ ([7, 14, 21, 30] : List ℕ) ∧ d.due = d.issued + k) := by
  obtain ⟨-, ⟨off, hoff, hiss⟩, hdue, -, -, -⟩ := gen_invoice_fields h
  exact ⟨⟨off, hoff, hiss⟩, by omega, by omega, hdue⟩

/-- Claim C8 witness: the seed-42 first document has its issued date 10 days
after day 19970 (today − 30) and its due date 30 days after the issued
date. -/
theorem claim_C8_witness :
    (∃ off, off ≤ 25 ∧ sampleDoc.issued = 20000 - 30 + off) ∧
    20000 - 30 ≤ sampleDoc.issued ∧ sampleDoc.issued ≤ 20000 - 5 ∧
    (∃ k, k ∈ ([7, 14, 21, 30] : List ℕ)
      ∧ sampleDoc.due = sampleDoc.issued + k) :=
  claim_C8 20000 1 (rand_seed 42) (by decide) gen_invoice_sample

/-- Claim C9 (amended): a run requesting zero documents over a directory
with no pre-existing `.pdf` files writes a header-only manifest, an archive
with zero entries, and the catalog export with one row per catalog entry;
the catalog export is the same for every `N` and directory state. -/
theorem claim_C9 (seed today : ℕ) :
    run seed 0 today [] = some empty_run_result ∧
    empty_run_result.manifestCsv = [manifest_header] ∧
    empty_run_result.zipEntries = [] ∧
    catalog_csv_rows.length = PRODUCT_CATALOG.length + 1 ∧
    (∀ N init, (run seed N today init).map (fun r => r.catalogCsv)
      = some catalog_csv_rows) :=
  ⟨rfl, rfl, rfl, by simp [catalog_csv_rows],
   fun N init => run_catalog_const seed N today init⟩

/-- Claim C9 counterexample: the claim as stated promises an archive with
zero entries after an `N = 0` run, but with a stale `old.pdf` in the output
directory the archive has one entry. -/
theorem claim_C9_counterexample :
    (run 7 0 123 ["old.pdf"]).map (fun r => r.zipEntries)
      = some ["old.pdf"] ∧
    (["old.pdf"] : List String) ≠ [] :=
  ⟨by decide, by decide⟩

/-- Claim C10: the subtotal, tax and grand total computed inside
`draw_invoice` (rendered in the PDF) coincide with the independently
recomputed totals of the main loop (recorded in the manifest row) — on every
line-item list and tax rate, and in particular on every generated
document. -/
theorem claim_C10 (lines : List LineItem) (rateBp : ℕ) (today i s : ℕ)
    {d : DocumentRecord} {s' : ℕ}
    (h : gen_invoice today i s = some (d, s')) :
    draw_invoice_totals lines rateBp = main_loop_totals lines rateBp ∧
    (d.subtotal, d.tax, d.grand) = draw_invoice_totals d.lines d.taxRateBp := by
  have heq : ∀ (L : List LineItem) (R : ℕ),
      draw_invoice_totals L R = main_loop_totals L R := by
    intro L R
    unfold draw_invoice_totals
    rw [main_loop_totals_eq, foldl_add_amount]
  refine ⟨heq lines rateBp, ?_⟩
  rw [heq d.lines d.taxRateBp]
  exact (gen_invoice_fields h).2.2.2.2.2

/-- Claim C10 witness: the two totals computations agree on the concrete
seed-42 document. -/
theorem claim_C10_witness :
    draw_invoice_totals sampleLines 725 = main_loop_totals sampleLines 725 ∧
    (sampleDoc.subtotal, sampleDoc.tax, sampleDoc.grand)
      = draw_invoice_totals sampleDoc.lines sampleDoc.taxRateBp :=
  claim_C10 sampleLines 725 20000 1 (rand_seed 42) gen_invoice_sample
